import Mathlib

/-!
Verification of the pdf-toolkit repository (`pdf_toolkit.py`): a shallow
embedding of its chunking, text-combining, rasterization and remote-OCR
pipeline logic, with theorems settling the specification's claims.

Pages are modelled by their 0-based indices; a chunk is the list of page
indices it contains. Filesystem and network effects are modelled by explicit
outcome records (which files exist, which remote calls were attempted).
-/

namespace PdfToolkit

/-! ## Chunk splitting (GoogleDriveOCR.split_pdf / split_pdf_to_folder)

The Python loop:
    num_chunks = (total_pages + self.pages_per_chunk - 1) // self.pages_per_chunk
    for chunk_num in range(num_chunks):
        start_page = chunk_num * self.pages_per_chunk
        end_page = min(start_page + self.pages_per_chunk, total_pages)
        for page_num in range(start_page, end_page): writer.add_page(...)
-/

/-- `num_chunks = (total_pages + pages_per_chunk - 1) // pages_per_chunk`. -/
def numChunks (totalPages pagesPerChunk : Nat) : Nat :=
  (totalPages + pagesPerChunk - 1) / pagesPerChunk

/-- `start_page = chunk_num * pages_per_chunk`. -/
def chunkStart (pagesPerChunk chunkNum : Nat) : Nat :=
  chunkNum * pagesPerChunk

/-- `end_page = min(start_page + pages_per_chunk, total_pages)`. -/
def chunkEnd (totalPages pagesPerChunk chunkNum : Nat) : Nat :=
  min (chunkStart pagesPerChunk chunkNum + pagesPerChunk) totalPages

/-- The pages written into chunk `chunkNum`:
`for page_num in range(start_page, end_page): writer.add_page(reader.pages[page_num])`. -/
def chunkPages (totalPages pagesPerChunk chunkNum : Nat) : List Nat :=
  List.range' (chunkStart pagesPerChunk chunkNum)
    (chunkEnd totalPages pagesPerChunk chunkNum - chunkStart pagesPerChunk chunkNum)

/-- `split_pdf_to_folder` (and the identical page loop of `split_pdf`):
the ordered list of chunks, each chunk given by the page indices it holds. -/
def split_pdf_to_folder (totalPages pagesPerChunk : Nat) : List (List Nat) :=
  (List.range (numChunks totalPages pagesPerChunk)).map
    (chunkPages totalPages pagesPerChunk)

/-! ## Combining chunk text files (ocr_pdf_chunked, lines 353-359)

    with open(output_path, 'w', encoding='utf-8') as outfile:
        for i, text_file in enumerate(text_files, 1):
            content = infile.read()
            outfile.write(content)
            if i < len(text_files):
                outfile.write("\n\n" + "="*50 + " Chunk " + str(i) + " End " + "="*50 + "\n\n")
-/

/-- The separator written after chunk `i` when `i` is not the last chunk:
`"\n\n" + "="*50`, then the f-string piece with the 1-based index `i`,
then `"="*50 + "\n\n"`. -/
def chunkSeparator (i : Nat) : String :=
  "\n\n" ++ String.mk (List.replicate 50 '=') ++ " Chunk " ++ toString i ++ " End "
    ++ String.mk (List.replicate 50 '=') ++ "\n\n"

/-- The enumerate-from-1 write loop: each chunk's text, followed by the
separator exactly when its 1-based index `i` satisfies `i < len(text_files)`. -/
def combineChunksAux (total : Nat) : Nat → List String → String
  | _, [] => ""
  | i, t :: ts =>
    t ++ (if i < total then chunkSeparator i else "") ++ combineChunksAux total (i + 1) ts

/-- The content written to the final output file from the per-chunk texts. -/
def combineChunks (texts : List String) : String :=
  combineChunksAux texts.length 1 texts

/-! ## PDFToImageConverter.convert

The body renders all pages (`convert_from_path`), fixes each page's color
mode, JPEG-encodes it (`img.save`), assembles the encodings
(`img2pdf.convert`) and writes the result to the output path. The whole body
sits in one `try`; the handler removes the output file when it exists and
re-raises `Exception("Conversion failed: " + str(e))`. Fallible collaborator
calls are modelled as `Except`-valued fields of a `ConvertWorld`. -/

/-- A rendered page image: its color mode string and an identifier standing
for its pixel content. -/
structure Image where
  mode : String
  pix : Nat
deriving DecidableEq

/-- The accepted color modes: `('RGB', 'RGBA', 'L', 'P', 'CMYK')`. -/
def acceptedModes : List String := ["RGB", "RGBA", "L", "P", "CMYK"]

/-- `if img.mode not in ('RGB', 'RGBA', 'L', 'P', 'CMYK'): img = img.convert('RGB')`. -/
def ensureCompatibleMode (img : Image) : Image :=
  if img.mode ∈ acceptedModes then img else { img with mode := "RGB" }

/-- The collaborators of `PDFToImageConverter.convert` and the input file's
presence, each fallible step as an `Except`. -/
structure ConvertWorld where
  inputExists : Bool
  render : Except String (List Image)
  encode : Image → Except String (List Nat)
  assemble : List (List Nat) → Except String (List Nat)
  writeFails : Bool

/-- The per-page loop: fix the color mode, then JPEG-encode; the first
encoding failure aborts the loop (the exception leaves the `for`). -/
def encodePages (w : ConvertWorld) : List Image → Except String (List (List Nat))
  | [] => .ok []
  | img :: rest =>
    match w.encode (ensureCompatibleMode img) with
    | .error e => .error e
    | .ok b =>
      match encodePages w rest with
      | .error e => .error e
      | .ok bs => .ok (b :: bs)

/-- What `convert` left behind: the call's result and whether the output
file exists once it returns or raises. -/
structure ConvertOutcome where
  result : Except String Unit
  outputExists : Bool

/-- The `try` body of `convert`: render, encode every page, assemble, write.
Second component: whether the output file exists when the body finishes or
raises (`open(output_path, "wb")` creates the file before a failing write). -/
def convertBody (w : ConvertWorld) : Except String Unit × Bool :=
  match w.render with
  | .error e => (.error e, false)
  | .ok imgs =>
    match encodePages w imgs with
    | .error e => (.error e, false)
    | .ok bs =>
      match w.assemble bs with
      | .error e => (.error e, false)
      | .ok _pdf =>
        if w.writeFails then (.error "write failed", true)
        else (.ok (), true)

/-- `PDFToImageConverter.convert`: the input-existence check, the `try`
body, and the `except` handler that removes an existing partial output and
raises `Exception("Conversion failed: " + str(e))`. -/
def convert (w : ConvertWorld) : ConvertOutcome :=
  if w.inputExists = false then
    { result := .error "Input file not found", outputExists := false }
  else
    match convertBody w with
    | (.ok _, ex) => { result := .ok (), outputExists := ex }
    | (.error e, ex) =>
      { result := .error ("Conversion failed: " ++ e),
        outputExists := if ex = true then false else ex }

/-- A concrete world for `convert`: two pages render and encode fine, the
final file write raises after the output file was created. -/
def convertWriteFailWorld : ConvertWorld where
  inputExists := true
  render := .ok [⟨"RGB", 0⟩, ⟨"1", 1⟩]
  encode := fun img => .ok [img.pix]
  assemble := fun bs => .ok bs.flatten
  writeFails := true

/-! ## GoogleDriveOCR: remote recognition and the chunked pipeline

`MIME_TYPES` is the module-level dict; `ocr_file` checks `self.service`,
resolves the MIME type, then uploads, exports and deletes on the remote
service; `ocr_pdf_chunked` and `scan_and_process_directory` call
`authenticate()` themselves when `self.service is None`, then drive
`split_pdf_to_folder`, `ocr_file` per chunk, and the combining loop. -/

/-- The `MIME_TYPES` dict, as an association list in source order. -/
def MIME_TYPES : List (String × String) :=
  [("pdf", "application/pdf"), ("jpg", "image/jpeg"), ("jpeg", "image/jpeg"),
   ("png", "image/png"), ("gif", "image/gif"), ("bmp", "image/bmp"),
   ("doc", "application/msword")]

/-- A remote (Google Drive) call attempted by `ocr_file`, in order:
`files().create` with the resolved MIME type, `files().export_media`,
`files().delete`. -/
inductive NetEvent where
  | upload (mime : String)
  | exportText
  | delete
deriving DecidableEq

/-- The errors `ocr_file` raises: the `RuntimeError` for a missing session,
the `ValueError` for an unsupported declared type, and propagated remote
failures. -/
inductive OcrError where
  | notAuthenticated
  | unsupportedType (fileType : String)
  | remote (msg : String)
deriving DecidableEq

/-- The remote service's behavior for one `ocr_file` call: the outcome of
upload (a file id), of the plain-text export, and of the delete. -/
structure Remote where
  upload : Except String Nat
  exportText : Nat → Except String String
  delete : Nat → Except String Unit

/-- `GoogleDriveOCR.ocr_file`: the `self.service is None` check, the
`MIME_TYPES.get(file_type.lower())` check, then upload, export and delete.
Returns the OCR text (or the raised error) and the remote calls attempted. -/
def ocr_file (serviceUp : Bool) (fileType : String) (r : Remote) :
    Except OcrError String × List NetEvent :=
  if serviceUp = false then (.error .notAuthenticated, [])
  else
    match MIME_TYPES.lookup fileType.toLower with
    | none => (.error (.unsupportedType fileType), [])
    | some mime =>
      match r.upload with
      | .error e => (.error (.remote e), [.upload mime])
      | .ok fid =>
        match r.exportText fid with
        | .error e => (.error (.remote e), [.upload mime, .exportText])
        | .ok text =>
          match r.delete fid with
          | .error e => (.error (.remote e), [.upload mime, .exportText, .delete])
          | .ok _ => (.ok text, [.upload mime, .exportText, .delete])

/-- An error that aborts `ocr_pdf_chunked` or `scan_and_process_directory`:
a failure raised by `authenticate()`, a chunk's `ocr_file` failure, or a
non-PDF file's `ocr_file` failure in the batch driver. -/
inductive PipelineError where
  | authFailure (msg : String)
  | ocrFailure (chunk : Nat) (e : OcrError)
  | fileFailure (e : OcrError)
deriving DecidableEq

/-- The world one `ocr_pdf_chunked` call runs in: the session state, the
outcome `authenticate()` would have, the auto-convert flag and converter
availability, the conversion outcome (page count of the image PDF), the
original page count, the chunk size, and the remote behavior per chunk. -/
structure ChunkedWorld where
  serviceAtStart : Bool
  authOutcome : Except String Unit
  autoConvert : Bool
  converterAvailable : Bool
  convertOutcome : Except String Nat
  origPages : Nat
  pagesPerChunk : Nat
  chunkRemote : Nat → Remote

/-- What one `ocr_pdf_chunked` call left behind. `outputFile` is the content
of the final output text file when it was created. -/
structure ChunkedOutcome where
  result : Except PipelineError Unit
  calledAuthenticate : Bool
  usedOriginal : Bool
  warnings : List String
  netEvents : List NetEvent
  outputFile : Option String

/-- The auto-convert step: `pdf_to_process = pdf_path`, replaced by the
converted PDF when `auto_convert and PDF_TO_IMAGE_AVAILABLE` and the
conversion succeeds; on conversion failure a warning is printed and the
original is kept. Returns (pages of `pdf_to_process`, whether the original
is used, warnings printed). -/
def pagesToProcess (w : ChunkedWorld) : Nat × Bool × List String :=
  if w.autoConvert && w.converterAvailable then
    match w.convertOutcome with
    | .ok n => (n, false, [])
    | .error e => (w.origPages, true, ["Warning: Could not convert to image PDF: " ++ e])
  else (w.origPages, true, [])

/-- Page count of the PDF actually split into chunks. -/
def pdfToProcessPages (w : ChunkedWorld) : Nat := (pagesToProcess w).1

/-- How many chunk files `ocr_pdf_chunked` splits its document into. -/
def chunkCount (w : ChunkedWorld) : Nat :=
  (split_pdf_to_folder (pdfToProcessPages w) w.pagesPerChunk).length

/-- The per-chunk loop: `self.ocr_file(chunk_file, chunk_output, 'pdf')` for
each chunk in order (the session is established by then); the first failure
aborts the loop. Returns the chunk texts (or the failing chunk and its
error) and the remote calls attempted. -/
def runChunks (remote : Nat → Remote) :
    List Nat → Except (Nat × OcrError) (List String) × List NetEvent
  | [] => (.ok [], [])
  | k :: ks =>
    match ocr_file true "pdf" (remote k) with
    | (.error e, evs) => (.error (k, e), evs)
    | (.ok t, evs) =>
      match runChunks remote ks with
      | (.error ke, evs2) => (.error ke, evs ++ evs2)
      | (.ok ts, evs2) => (.ok (t :: ts), evs ++ evs2)

/-- Splitting, the per-chunk OCR loop, and the combining write, as one
phase: the first chunk failure aborts with no output file written; success
writes the combined text. Returns (result, remote calls, output file
content). -/
def chunkPhase (remote : Nat → Remote) (pages pagesPerChunk : Nat) :
    Except PipelineError Unit × List NetEvent × Option String :=
  match runChunks remote (List.range (split_pdf_to_folder pages pagesPerChunk).length) with
  | (.error (k, e), evs) => (.error (.ocrFailure k e), evs, none)
  | (.ok texts, evs) => (.ok (), evs, some (combineChunks texts))

/-- `GoogleDriveOCR.ocr_pdf_chunked`: authenticate when `self.service is
None`, optionally convert (falling back to the original on failure), split
into chunks, OCR each chunk, and combine the chunk texts into the output
file. -/
def ocr_pdf_chunked (w : ChunkedWorld) : ChunkedOutcome :=
  let auth : Except String Unit × Bool :=
    if w.serviceAtStart = false then (w.authOutcome, true) else (.ok (), false)
  match auth with
  | (.error e, called) =>
    { result := .error (.authFailure e), calledAuthenticate := called,
      usedOriginal := true, warnings := [], netEvents := [], outputFile := none }
  | (.ok _, called) =>
    match pagesToProcess w with
    | (pages, usedOrig, warns) =>
      match chunkPhase w.chunkRemote pages w.pagesPerChunk with
      | (res, evs, out) =>
        { result := res, calledAuthenticate := called,
          usedOriginal := usedOrig, warnings := warns, netEvents := evs,
          outputFile := out }

/-- The world one `scan_and_process_directory` call runs in: the session
state, `authenticate()`'s outcome, the downstream world of each discovered
PDF, and the declared type and remote behavior of each other discovered
file. -/
structure ScanWorld where
  serviceAtStart : Bool
  authOutcome : Except String Unit
  pdfRuns : List ChunkedWorld
  otherRuns : List (String × Remote)

/-- The batch driver's PDF loop: `self.ocr_pdf_chunked(...)` per discovered
PDF, with the session established; the first failure propagates. -/
def processPdfBatch : List ChunkedWorld → Except PipelineError Unit
  | [] => .ok ()
  | cw :: rest =>
    match (ocr_pdf_chunked { cw with serviceAtStart := true }).result with
    | .error e => .error e
    | .ok _ => processPdfBatch rest

/-- The batch driver's non-PDF loop: `self.ocr_file(...)` per file, with the
session established; the first failure propagates. -/
def processOtherBatch : List (String × Remote) → Except PipelineError Unit
  | [] => .ok ()
  | (ft, r) :: rest =>
    match (ocr_file true ft r).1 with
    | .error e => .error (.fileFailure e)
    | .ok _ => processOtherBatch rest

/-- `GoogleDriveOCR.scan_and_process_directory`: authenticate when
`self.service is None`, then process the discovered PDFs and the other
files. Returns the result and whether `authenticate()` was called. -/
def scan_and_process_directory (w : ScanWorld) : Except PipelineError Unit × Bool :=
  if w.serviceAtStart = false then
    match w.authOutcome with
    | .error e => (.error (.authFailure e), true)
    | .ok _ =>
      match processPdfBatch w.pdfRuns with
      | .error e => (.error e, true)
      | .ok _ => (processOtherBatch w.otherRuns, true)
  else
    match processPdfBatch w.pdfRuns with
    | .error e => (.error e, false)
    | .ok _ => (processOtherBatch w.otherRuns, false)

/-- A remote that answers every call successfully. -/
def okRemote : Remote where
  upload := .ok 7
  exportText := fun _ => .ok "text"
  delete := fun _ => .ok ()

/-- A concrete world for `ocr_pdf_chunked`: authenticated session, the
conversion step fails, the original document has 12 pages, chunk size 10,
and a remote that always succeeds. -/
def convFailWorld : ChunkedWorld where
  serviceAtStart := true
  authOutcome := .ok ()
  autoConvert := true
  converterAvailable := true
  convertOutcome := .error "poppler missing"
  origPages := 12
  pagesPerChunk := 10
  chunkRemote := fun _ => okRemote

/-- A concrete world for `ocr_pdf_chunked`: no session yet, `authenticate()`
succeeds, no auto-convert, 12 pages, chunk size 10, all-success remote. -/
def unauthChunkedWorld : ChunkedWorld where
  serviceAtStart := false
  authOutcome := .ok ()
  autoConvert := false
  converterAvailable := true
  convertOutcome := .ok 12
  origPages := 12
  pagesPerChunk := 10
  chunkRemote := fun _ => okRemote

/-- A concrete world for `scan_and_process_directory`: no session yet,
`authenticate()` succeeds, nothing discovered in the directory. -/
def unauthScanWorld : ScanWorld where
  serviceAtStart := false
  authOutcome := .ok ()
  pdfRuns := []
  otherRuns := []

/-- A concrete world for `ocr_pdf_chunked`: authenticated session, no
auto-convert, a 0-page document, chunk size 10. -/
def zeroPageWorld : ChunkedWorld where
  serviceAtStart := true
  authOutcome := .ok ()
  autoConvert := false
  converterAvailable := true
  convertOutcome := .ok 0
  origPages := 0
  pagesPerChunk := 10
  chunkRemote := fun _ => okRemote

lemma numChunks_zero {C : Nat} (hC : 0 < C) : numChunks 0 C = 0 := by
  unfold numChunks
  rw [Nat.div_eq_of_lt]
  omega

lemma numChunks_eq_zero {P C : Nat} (hC : 0 < C) (h : numChunks P C = 0) : P = 0 := by
  unfold numChunks at h
  rcases Nat.eq_zero_or_pos P with h0 | h0
  · exact h0
  · exfalso
    have hle : 1 ≤ (P + C - 1) / C := by
      rw [Nat.le_div_iff_mul_le hC]
      omega
    omega

lemma numChunks_succ_bounds {P C n : Nat} (hC : 0 < C)
    (h : numChunks P C = n + 1) : n * C < P ∧ P ≤ (n + 1) * C := by
  unfold numChunks at h
  have h1 : (n + 1) * C ≤ P + C - 1 := by
    rw [← Nat.le_div_iff_mul_le hC, h]
  have h2 : P + C - 1 < (n + 2) * C := by
    rw [← Nat.div_lt_iff_lt_mul hC, h]
    omega
  have e1 : (n + 1) * C = n * C + C := by ring
  have e2 : (n + 2) * C = n * C + C + C := by ring
  rw [e1] at h1 ⊢
  rw [e2] at h2
  omega

lemma numChunks_mul {C : Nat} (hC : 0 < C) (n : Nat) : numChunks (n * C) C = n := by
  unfold numChunks
  have e : (n + 1) * C = n * C + C := by ring
  apply Nat.div_eq_of_lt_le <;> omega

lemma chunkPages_of_lt {P C k n : Nat} (hk : k < n) (hn : n * C < P) :
    chunkPages P C k = chunkPages (n * C) C k := by
  unfold chunkPages chunkEnd chunkStart
  have h1 : k * C + C ≤ n * C := by
    have e : (k + 1) * C = k * C + C := by ring
    calc k * C + C = (k + 1) * C := e.symm
    _ ≤ n * C := Nat.mul_le_mul_right C hk
  congr 1
  omega

lemma split_length (P C : Nat) :
    (split_pdf_to_folder P C).length = numChunks P C := by
  simp [split_pdf_to_folder]

lemma split_flatten_aux (C : Nat) (hC : 0 < C) :
    ∀ n P, numChunks P C = n →
      (split_pdf_to_folder P C).flatten = List.range P := by
  intro n
  induction n with
  | zero =>
    intro P h
    have hP : P = 0 := numChunks_eq_zero hC h
    subst hP
    simp [split_pdf_to_folder, numChunks_zero hC]
  | succ n ih =>
    intro P h
    obtain ⟨hlo, hhi⟩ := numChunks_succ_bounds hC h
    have hn : numChunks (n * C) C = n := numChunks_mul hC n
    have hmap : (List.range n).map (chunkPages P C)
        = (List.range n).map (chunkPages (n * C) C) := by
      apply List.map_congr_left
      intro k hk
      exact chunkPages_of_lt (List.mem_range.mp hk) hlo
    have hprev : ((List.range n).map (chunkPages (n * C) C)).flatten
        = List.range (n * C) := by
      have := ih (n * C) hn
      rw [split_pdf_to_folder, hn] at this
      exact this
    rw [split_pdf_to_folder, h, List.range_succ, List.map_append,
      List.flatten_append, hmap, hprev]
    have hlast : chunkPages P C n = List.range' (n * C) (P - n * C) := by
      unfold chunkPages chunkEnd chunkStart
      congr 1
      have e : (n + 1) * C = n * C + C := by ring
      omega
    simp only [List.map_cons, List.map_nil, List.flatten_cons, List.flatten_nil,
      List.append_nil]
    rw [hlast]
    rw [List.range_eq_range', List.range_eq_range']
    have happ := List.range'_append 0 (n * C) (P - n * C) 1
    simp only [Nat.one_mul, Nat.zero_add] at happ
    rw [happ]
    congr 1
    omega

lemma split_flatten {P C : Nat} (hC : 0 < C) :
    (split_pdf_to_folder P C).flatten = List.range P :=
  split_flatten_aux C hC (numChunks P C) P rfl

/-- C1: for a source PDF with `P` pages and positive chunk size `C`,
`split_pdf_to_folder` produces exactly `ceil(P/C) = (P + C - 1) / C` chunks;
each chunk holds at most `C` pages; chunk `k` holds exactly the page range
`[k*C, min((k+1)*C, P))`; the chunks' pages, concatenated in order, are
exactly the pages `0..P-1` (contiguous, non-overlapping, exhaustive); and a
document with `P = 0` pages produces no chunks. -/
theorem split_pdf_to_folder_chunk_spec (P C : Nat) (hC : 0 < C) :
    (split_pdf_to_folder P C).length = (P + C - 1) / C ∧
    (∀ ch ∈ split_pdf_to_folder P C, ch.length ≤ C) ∧
    (∀ k, k < numChunks P C →
      (split_pdf_to_folder P C)[k]? =
        some (List.range' (k * C) (min ((k + 1) * C) P - k * C))) ∧
    (split_pdf_to_folder P C).flatten = List.range P ∧
    (P = 0 → split_pdf_to_folder P C = []) := by
  refine ⟨split_length P C, ?_, ?_, split_flatten hC, ?_⟩
  · intro ch hch
    rw [split_pdf_to_folder, List.mem_map] at hch
    obtain ⟨k, _, hk⟩ := hch
    subst hk
    unfold chunkPages chunkEnd chunkStart
    rw [List.length_range']
    omega
  · intro k hk
    rw [split_pdf_to_folder, List.getElem?_map, List.getElem?_range hk]
    unfold chunkPages chunkEnd chunkStart
    have e : (k + 1) * C = k * C + C := by ring
    rw [Option.map_some']
    congr 2
    omega
  · intro hP
    subst hP
    simp [split_pdf_to_folder, numChunks_zero hC]

/-- Witness for C1 at the spec's scenario A: 25 pages, chunk size 10. -/
theorem split_pdf_to_folder_chunk_spec_witness :
    (split_pdf_to_folder 25 10).length = (25 + 10 - 1) / 10 ∧
    (∀ ch ∈ split_pdf_to_folder 25 10, ch.length ≤ 10) ∧
    (∀ k, k < numChunks 25 10 →
      (split_pdf_to_folder 25 10)[k]? =
        some (List.range' (k * 10) (min ((k + 1) * 10) 25 - k * 10))) ∧
    (split_pdf_to_folder 25 10).flatten = List.range 25 ∧
    (25 = 0 → split_pdf_to_folder 25 10 = []) :=
  split_pdf_to_folder_chunk_spec 25 10 (by decide)

/-- C2: round-trip — concatenating the page ranges of the chunks produced by
`split_pdf_to_folder`, in chunk order, reproduces exactly the original page
sequence `0..P-1` in the original order. -/
theorem split_pdf_to_folder_roundtrip (P C : Nat) (hC : 0 < C) :
    (split_pdf_to_folder P C).flatten = List.range P :=
  split_flatten hC

/-- Witness for C2 at 25 pages, chunk size 10. -/
theorem split_pdf_to_folder_roundtrip_witness :
    (split_pdf_to_folder 25 10).flatten = List.range 25 :=
  split_pdf_to_folder_roundtrip 25 10 (by decide)

/-- C3, counterexample: the claimed exact content uses a 32-character run of
`=` on each side of the separator, but the code writes `"="*50`; at the
concrete 2-chunk texts `"a"`, `"b"` the produced file content differs from
the claimed string. -/
theorem combineChunks_sep32_counterexample :
    ¬ (combineChunks ["a", "b"] =
      "a" ++ "\n\n" ++ String.mk (List.replicate 32 '=') ++ " Chunk 1 End "
        ++ String.mk (List.replicate 32 '=') ++ "\n\n" ++ "b") := by
  decide

/-- C3 (amended: the separator's `=` runs have 50 characters, not 32): for a
2-chunk document the output file content is exactly
`<chunk1 text>\n\n<50 equals> Chunk 1 End <50 equals>\n\n<chunk2 text>` —
the separator carries the 1-based chunk index and none follows the last
chunk. -/
theorem combineChunks_two_chunks (t1 t2 : String) :
    combineChunks [t1, t2] =
      t1 ++ ("\n\n" ++ String.mk (List.replicate 50 '=') ++ " Chunk 1 End "
        ++ String.mk (List.replicate 50 '=') ++ "\n\n") ++ t2 := by
  have hsep : chunkSeparator 1 =
      "\n\n" ++ String.mk (List.replicate 50 '=') ++ " Chunk 1 End "
        ++ String.mk (List.replicate 50 '=') ++ "\n\n" := by decide
  simp only [combineChunks, combineChunksAux, List.length_cons, List.length_nil]
  norm_num
  rw [hsep]

/-- C4: whenever `PDFToImageConverter.convert` fails past the input-existence
check (in particular after partial page processing), the output file does not
exist afterwards — the handler deletes any partially written output — and the
reported error wraps the underlying cause in the single conversion-failure
message. -/
theorem convert_failure_all_or_nothing (w : ConvertWorld) (e : String)
    (hin : w.inputExists = true)
    (herr : (convert w).result = .error e) :
    (convert w).outputExists = false ∧
    ∃ cause, e = "Conversion failed: " ++ cause := by
  unfold convert at herr ⊢
  rw [hin] at herr ⊢
  simp only [Bool.true_eq_false, if_false] at herr ⊢
  rcases h : convertBody w with ⟨r, ex⟩
  rw [h] at herr
  cases r with
  | ok u => simp at herr
  | error msg =>
    simp only at herr ⊢
    refine ⟨?_, msg, ?_⟩
    · cases ex <;> simp
    · cases herr
      rfl

/-- Witness for C4: two pages render and encode, the final write fails after
creating the file; the file is gone and the error is the wrapped one. -/
theorem convert_failure_all_or_nothing_witness :
    (convert convertWriteFailWorld).outputExists = false ∧
    ∃ cause, "Conversion failed: write failed" = "Conversion failed: " ++ cause :=
  convert_failure_all_or_nothing convertWriteFailWorld "Conversion failed: write failed"
    rfl rfl

/-- C6: a rendered page whose mode is in the accepted set
`{RGB, RGBA, L, P, CMYK}` is passed on without color-mode coercion; a page in
any other mode is coerced to `RGB` (pixel identity kept) before JPEG
encoding, and the encoder always receives the mode-fixed image. -/
theorem rasterize_mode_coercion (img : Image) :
    (img.mode ∈ acceptedModes → ensureCompatibleMode img = img) ∧
    (img.mode ∉ acceptedModes →
      ensureCompatibleMode img = { mode := "RGB", pix := img.pix }) ∧
    acceptedModes = ["RGB", "RGBA", "L", "P", "CMYK"] ∧
    (∀ w : ConvertWorld,
      encodePages w [img] = (w.encode (ensureCompatibleMode img)).map (fun b => [b])) := by
  refine ⟨fun h => ?_, fun h => ?_, rfl, fun w => ?_⟩
  · simp [ensureCompatibleMode, h]
  · simp [ensureCompatibleMode, h]
  · rcases h : w.encode (ensureCompatibleMode img) with e | b <;>
      simp [encodePages, h, Except.map]

lemma runChunks_mem_ok {remote : Nat → Remote} :
    ∀ ks ts evs, runChunks remote ks = (.ok ts, evs) →
      ∀ k ∈ ks, ∃ t, (ocr_file true "pdf" (remote k)).1 = .ok t := by
  intro ks
  induction ks with
  | nil => simp
  | cons k ks ih =>
    intro ts evs h j hj
    unfold runChunks at h
    rcases hof : ocr_file true "pdf" (remote k) with ⟨r1, evs1⟩
    rw [hof] at h
    cases r1 with
    | error e1 => simp at h
    | ok t1 =>
      rcases hrest : runChunks remote ks with ⟨r2, evs2⟩
      rw [hrest] at h
      cases r2 with
      | error e2 => simp at h
      | ok ts2 =>
        rcases List.mem_cons.mp hj with rfl | hj2
        · exact ⟨t1, by rw [hof]⟩
        · exact ih ts2 evs2 hrest j hj2

lemma chunkPhase_ok_chunks {remote : Nat → Remote} {pages C : Nat}
    (h : (chunkPhase remote pages C).1 = .ok ()) :
    ∀ k, k < (split_pdf_to_folder pages C).length →
      ∃ t, (ocr_file true "pdf" (remote k)).1 = .ok t := by
  unfold chunkPhase at h
  rcases hrc : runChunks remote (List.range (split_pdf_to_folder pages C).length)
    with ⟨rc, evs⟩
  rw [hrc] at h
  cases rc with
  | error ke => rcases ke with ⟨k, er⟩; simp at h
  | ok ts =>
    intro k hk
    exact runChunks_mem_ok _ ts evs hrc k (List.mem_range.mpr hk)

lemma ocr_pdf_chunked_authed (hw : ChunkedWorld)
    (hau : hw.serviceAtStart = true ∨ hw.authOutcome = .ok ())
    (pages : Nat) (uo : Bool) (warns : List String)
    (hp : pagesToProcess hw = (pages, uo, warns)) :
    ocr_pdf_chunked hw =
      { result := (chunkPhase hw.chunkRemote pages hw.pagesPerChunk).1,
        calledAuthenticate := !hw.serviceAtStart,
        usedOriginal := uo, warnings := warns,
        netEvents := (chunkPhase hw.chunkRemote pages hw.pagesPerChunk).2.1,
        outputFile := (chunkPhase hw.chunkRemote pages hw.pagesPerChunk).2.2 } := by
  unfold ocr_pdf_chunked
  rcases hcp : chunkPhase hw.chunkRemote pages hw.pagesPerChunk with ⟨res, evs, out⟩
  rcases hsvc : hw.serviceAtStart with _ | _
  · rcases hau with hau | hau
    · rw [hsvc] at hau; cases hau
    · simp only [Bool.false_eq_true, if_pos rfl]
      rw [hau, hp, hcp]
      simp
  · simp only [Bool.true_eq_false, hp, hcp]
    simp

lemma ocr_pdf_chunked_auth_error (hw : ChunkedWorld) (e : String)
    (h1 : hw.serviceAtStart = false) (h2 : hw.authOutcome = .error e) :
    ocr_pdf_chunked hw =
      { result := .error (.authFailure e), calledAuthenticate := true,
        usedOriginal := true, warnings := [], netEvents := [],
        outputFile := none } := by
  unfold ocr_pdf_chunked
  rw [h1]
  simp only [if_pos rfl]
  rw [h2]
  simp

lemma ocr_pdf_chunked_ok_all_remote (w' : ChunkedWorld)
    (hok : (ocr_pdf_chunked w').result = .ok ()) :
    (w'.serviceAtStart = true ∨ w'.authOutcome = .ok ()) ∧
    ∀ k, k < chunkCount w' →
      ∃ t, (ocr_file true "pdf" (w'.chunkRemote k)).1 = .ok t := by
  rcases hp : pagesToProcess w' with ⟨pages, uo, warns⟩
  have hcc : chunkCount w' = (split_pdf_to_folder pages w'.pagesPerChunk).length := by
    unfold chunkCount pdfToProcessPages
    rw [hp]
  rcases hsvc : w'.serviceAtStart with _ | _
  · rcases hao : w'.authOutcome with ea | u
    · rw [ocr_pdf_chunked_auth_error w' ea hsvc hao] at hok
      simp at hok
    · have hau : w'.serviceAtStart = true ∨ w'.authOutcome = .ok () :=
        Or.inr (by rw [hao])
      rw [ocr_pdf_chunked_authed w' hau pages uo warns hp] at hok
      refine ⟨Or.inr rfl, fun k hk => chunkPhase_ok_chunks hok k ?_⟩
      omega
  · have hau : w'.serviceAtStart = true ∨ w'.authOutcome = .ok () := Or.inl hsvc
    rw [ocr_pdf_chunked_authed w' hau pages uo warns hp] at hok
    refine ⟨Or.inl rfl, fun k hk => chunkPhase_ok_chunks hok k ?_⟩
    omega

/-- C5: when auto-convert is enabled, the rasterizer is available and the
rasterization step fails, `ocr_pdf_chunked` logs a conversion warning and
continues with the original unconverted PDF — its result and output are those
of the same run with auto-convert off — and the conversion failure is the
only swallowed error: a successful run means authentication and every
chunk's remote OCR succeeded. -/
theorem ocr_pdf_chunked_conversion_fallback (w : ChunkedWorld) (e : String)
    (hauth : w.serviceAtStart = true ∨ w.authOutcome = .ok ())
    (h1 : w.autoConvert = true) (h2 : w.converterAvailable = true)
    (h3 : w.convertOutcome = .error e) :
    (ocr_pdf_chunked w).usedOriginal = true ∧
    ("Warning: Could not convert to image PDF: " ++ e) ∈ (ocr_pdf_chunked w).warnings ∧
    (ocr_pdf_chunked w).result = (ocr_pdf_chunked { w with autoConvert := false }).result ∧
    (ocr_pdf_chunked w).outputFile =
      (ocr_pdf_chunked { w with autoConvert := false }).outputFile ∧
    (∀ w' : ChunkedWorld, (ocr_pdf_chunked w').result = .ok () →
      (w'.serviceAtStart = true ∨ w'.authOutcome = .ok ()) ∧
      ∀ k, k < chunkCount w' →
        ∃ t, (ocr_file true "pdf" (w'.chunkRemote k)).1 = .ok t) := by
  have hpages : pagesToProcess w =
      (w.origPages, true, ["Warning: Could not convert to image PDF: " ++ e]) := by
    simp [pagesToProcess, h1, h2, h3]
  have hpages' : pagesToProcess { w with autoConvert := false } =
      (w.origPages, true, []) := by
    simp [pagesToProcess]
  rw [ocr_pdf_chunked_authed w hauth _ _ _ hpages,
    ocr_pdf_chunked_authed { w with autoConvert := false } (by simpa using hauth)
      _ _ _ hpages']
  exact ⟨rfl, by simp, rfl, rfl, ocr_pdf_chunked_ok_all_remote⟩

/-- Witness for C5: authenticated session, conversion fails on a 12-page
document with chunk size 10, fully successful remote. -/
theorem ocr_pdf_chunked_conversion_fallback_witness :
    (ocr_pdf_chunked convFailWorld).usedOriginal = true ∧
    ("Warning: Could not convert to image PDF: " ++ "poppler missing") ∈
      (ocr_pdf_chunked convFailWorld).warnings ∧
    (ocr_pdf_chunked convFailWorld).result =
      (ocr_pdf_chunked { convFailWorld with autoConvert := false }).result ∧
    (ocr_pdf_chunked convFailWorld).outputFile =
      (ocr_pdf_chunked { convFailWorld with autoConvert := false }).outputFile ∧
    (∀ w' : ChunkedWorld, (ocr_pdf_chunked w').result = .ok () →
      (w'.serviceAtStart = true ∨ w'.authOutcome = .ok ()) ∧
      ∀ k, k < chunkCount w' →
        ∃ t, (ocr_file true "pdf" (w'.chunkRemote k)).1 = .ok t) :=
  ocr_pdf_chunked_conversion_fallback convFailWorld "poppler missing"
    (Or.inl rfl) rfl rfl rfl

/-- C7: calling `ocr_file` with no authenticated session (`self.service is
None`) raises the not-authenticated error and attempts no remote call: no
upload, export or delete. -/
theorem ocr_file_requires_authentication (fileType : String) (r : Remote) :
    ocr_file false fileType r = (.error .notAuthenticated, []) := rfl

/-- C8: a declared type whose lowercase form has no `MIME_TYPES` entry — the
entries are exactly pdf, jpg, jpeg, png, gif, bmp, doc — makes `ocr_file`
fail with the unsupported-type error before any remote call; a type with an
entry is accepted: the first remote call is the upload with the declared
MIME type, and neither precondition error is raised. -/
theorem ocr_file_type_allowlist (fileType : String) (r : Remote) :
    ((MIME_TYPES.lookup fileType.toLower).isSome ↔
      fileType.toLower ∈ ["pdf", "jpg", "jpeg", "png", "gif", "bmp", "doc"]) ∧
    (MIME_TYPES.lookup fileType.toLower = none →
      ocr_file true fileType r = (.error (.unsupportedType fileType), [])) ∧
    (∀ mime, MIME_TYPES.lookup fileType.toLower = some mime →
      (ocr_file true fileType r).2.head? = some (.upload mime) ∧
      ∀ t, (ocr_file true fileType r).1 ≠ .error (.unsupportedType t) ∧
        (ocr_file true fileType r).1 ≠ .error .notAuthenticated) := by
  refine ⟨?_, ?_, ?_⟩
  · simp only [MIME_TYPES, List.lookup]
    rcases h1 : fileType.toLower == "pdf" <;>
      rcases h2 : fileType.toLower == "jpg" <;>
      rcases h3 : fileType.toLower == "jpeg" <;>
      rcases h4 : fileType.toLower == "png" <;>
      rcases h5 : fileType.toLower == "gif" <;>
      rcases h6 : fileType.toLower == "bmp" <;>
      rcases h7 : fileType.toLower == "doc" <;>
      simp_all
  · intro h
    simp [ocr_file, h]
  · intro mime h
    unfold ocr_file
    rw [if_neg (by simp), h]
    rcases hu : r.upload with eu | fid
    · simp
    · rcases he : r.exportText fid with ee | text
      · simp [he]
      · rcases hd : r.delete fid with ed | u <;> simp [he, hd]

lemma ocr_file_true_no_notAuth (ft : String) (r : Remote) :
    (ocr_file true ft r).1 ≠ .error .notAuthenticated := by
  unfold ocr_file
  rw [if_neg (by simp)]
  rcases h : MIME_TYPES.lookup ft.toLower with _ | mime
  · simp
  · rcases hu : r.upload with eu | fid
    · simp
    · rcases he : r.exportText fid with ee | text
      · simp [he]
      · rcases hd : r.delete fid with ed | u <;> simp [he, hd]

lemma runChunks_error_no_notAuth {remote : Nat → Remote} :
    ∀ ks k e evs, runChunks remote ks = (.error (k, e), evs) →
      e ≠ OcrError.notAuthenticated := by
  intro ks
  induction ks with
  | nil => simp [runChunks]
  | cons j js ih =>
    intro k e evs h
    unfold runChunks at h
    rcases hof : ocr_file true "pdf" (remote j) with ⟨r1, evs1⟩
    rw [hof] at h
    cases r1 with
    | error e1 =>
      simp only [Prod.mk.injEq, Except.error.injEq, Prod.mk.injEq] at h
      obtain ⟨⟨-, he⟩, -⟩ := h
      subst he
      intro hcontra
      subst hcontra
      exact ocr_file_true_no_notAuth "pdf" (remote j) (by rw [hof])
    | ok t1 =>
      rcases hrest : runChunks remote js with ⟨r2, evs2⟩
      rw [hrest] at h
      cases r2 with
      | error ke =>
        simp only [Prod.mk.injEq, Except.error.injEq] at h
        obtain ⟨hke, -⟩ := h
        subst hke
        exact ih k e evs2 hrest
      | ok ts => simp at h

lemma chunkPhase_no_notAuth (remote : Nat → Remote) (pages C k : Nat) :
    (chunkPhase remote pages C).1 ≠ .error (.ocrFailure k .notAuthenticated) := by
  unfold chunkPhase
  rcases hrc : runChunks remote (List.range (split_pdf_to_folder pages C).length)
    with ⟨rc, evs⟩
  cases rc with
  | error ke =>
    rcases ke with ⟨j, e⟩
    have hne : e ≠ OcrError.notAuthenticated :=
      runChunks_error_no_notAuth _ j e evs hrc
    simp only [ne_eq, Except.error.injEq, PipelineError.ocrFailure.injEq]
    intro hcontra
    exact hne hcontra.2
  | ok ts => simp

lemma ocr_pdf_chunked_no_notAuth (w : ChunkedWorld) (k : Nat) :
    (ocr_pdf_chunked w).result ≠ .error (.ocrFailure k .notAuthenticated) := by
  rcases hp : pagesToProcess w with ⟨pages, uo, warns⟩
  rcases hsvc : w.serviceAtStart with _ | _
  · rcases hao : w.authOutcome with e | u
    · rw [ocr_pdf_chunked_auth_error w e hsvc hao]
      simp
    · rw [ocr_pdf_chunked_authed w (Or.inr (by rw [hao])) pages uo warns hp]
      exact chunkPhase_no_notAuth w.chunkRemote pages w.pagesPerChunk k
  · rw [ocr_pdf_chunked_authed w (Or.inl hsvc) pages uo warns hp]
    exact chunkPhase_no_notAuth w.chunkRemote pages w.pagesPerChunk k

/-- C9: the chunked entry points do not enforce the remote client's
authentication precondition — started with no session, `ocr_pdf_chunked` and
`scan_and_process_directory` call `authenticate()` themselves and, when it
succeeds, proceed exactly as an already-authenticated run; they never raise
the not-authenticated error. Only the single-file `ocr_file` fails
unauthenticated. -/
theorem chunked_entry_points_self_authenticate (w : ChunkedWorld) (sw : ScanWorld)
    (h1 : w.serviceAtStart = false) (h2 : sw.serviceAtStart = false) :
    (ocr_pdf_chunked w).calledAuthenticate = true ∧
    (scan_and_process_directory sw).2 = true ∧
    (w.authOutcome = .ok () →
      (ocr_pdf_chunked w).result =
        (ocr_pdf_chunked { w with serviceAtStart := true }).result) ∧
    (sw.authOutcome = .ok () →
      (scan_and_process_directory sw).1 =
        (scan_and_process_directory { sw with serviceAtStart := true }).1) ∧
    (∀ k, (ocr_pdf_chunked w).result ≠ .error (.ocrFailure k .notAuthenticated)) ∧
    (∀ ft r, ocr_file false ft r = (.error .notAuthenticated, [])) := by
  refine ⟨?_, ?_, ?_, ?_, ocr_pdf_chunked_no_notAuth w, fun ft r => rfl⟩
  · rcases hao : w.authOutcome with e | u
    · rw [ocr_pdf_chunked_auth_error w e h1 hao]
    · rcases hp : pagesToProcess w with ⟨pages, uo, warns⟩
      rw [ocr_pdf_chunked_authed w (Or.inr (by rw [hao])) pages uo warns hp, h1]
      rfl
  · unfold scan_and_process_directory
    rw [h2]
    simp only [if_pos rfl]
    rcases hao : sw.authOutcome with e | u
    · rfl
    · rcases hb : processPdfBatch sw.pdfRuns with e | u <;> rfl
  · intro hao
    rcases hp : pagesToProcess w with ⟨pages, uo, warns⟩
    rw [ocr_pdf_chunked_authed w (Or.inr hao) pages uo warns hp,
      ocr_pdf_chunked_authed { w with serviceAtStart := true } (Or.inl rfl)
        pages uo warns hp]
  · intro hao
    unfold scan_and_process_directory
    rw [h2, hao]
    rcases hb : processPdfBatch sw.pdfRuns with e | u <;> simp [hb]

/-- Witness for C9: unauthenticated worlds whose `authenticate()` succeeds,
a 12-page document with chunk size 10 and an empty directory scan. -/
theorem chunked_entry_points_self_authenticate_witness :
    (ocr_pdf_chunked unauthChunkedWorld).calledAuthenticate = true ∧
    (scan_and_process_directory unauthScanWorld).2 = true ∧
    (unauthChunkedWorld.authOutcome = .ok () →
      (ocr_pdf_chunked unauthChunkedWorld).result =
        (ocr_pdf_chunked { unauthChunkedWorld with serviceAtStart := true }).result) ∧
    (unauthScanWorld.authOutcome = .ok () →
      (scan_and_process_directory unauthScanWorld).1 =
        (scan_and_process_directory { unauthScanWorld with serviceAtStart := true }).1) ∧
    (∀ k, (ocr_pdf_chunked unauthChunkedWorld).result ≠
      .error (.ocrFailure k .notAuthenticated)) ∧
    (∀ ft r, ocr_file false ft r = (.error .notAuthenticated, [])) :=
  chunked_entry_points_self_authenticate unauthChunkedWorld unauthScanWorld rfl rfl

/-- C10: for a document whose PDF to process has 0 pages, `ocr_pdf_chunked`
attempts no upload, export or delete, yet still creates the final output
text file, empty, and returns successfully. -/
theorem ocr_pdf_chunked_zero_pages (w : ChunkedWorld)
    (hauth : w.serviceAtStart = true ∨ w.authOutcome = .ok ())
    (hC : 0 < w.pagesPerChunk)
    (h0 : w.origPages = 0)
    (hconv : ∀ n, w.convertOutcome = .ok n → n = 0) :
    (ocr_pdf_chunked w).netEvents = [] ∧
    (ocr_pdf_chunked w).outputFile = some "" ∧
    (ocr_pdf_chunked w).result = .ok () := by
  rcases hp : pagesToProcess w with ⟨pages, uo, warns⟩
  have hpages0 : pages = 0 := by
    unfold pagesToProcess at hp
    rcases hb : w.autoConvert && w.converterAvailable with _ | _
    · rw [hb] at hp
      simp only [Bool.false_eq_true, if_pos] at hp
      cases hp
      exact h0
    · rw [hb] at hp
      simp only [if_pos rfl] at hp
      rcases hc : w.convertOutcome with e | n
      · rw [hc] at hp
        cases hp
        exact h0
      · rw [hc] at hp
        have hpn : pages = n := (congrArg Prod.fst hp).symm
        rw [hpn]
        exact hconv n hc
  subst hpages0
  have hsplit : split_pdf_to_folder 0 w.pagesPerChunk = [] := by
    simp [split_pdf_to_folder, numChunks_zero hC]
  have hcp : chunkPhase w.chunkRemote 0 w.pagesPerChunk = (.ok (), [], some "") := by
    unfold chunkPhase
    rw [hsplit]
    simp [runChunks, combineChunks, combineChunksAux]
  rw [ocr_pdf_chunked_authed w hauth 0 uo warns hp, hcp]
  exact ⟨rfl, rfl, rfl⟩

/-- Witness for C10: authenticated session, 0-page document, chunk size 10. -/
theorem ocr_pdf_chunked_zero_pages_witness :
    (ocr_pdf_chunked zeroPageWorld).netEvents = [] ∧
    (ocr_pdf_chunked zeroPageWorld).outputFile = some "" ∧
    (ocr_pdf_chunked zeroPageWorld).result = .ok () :=
  ocr_pdf_chunked_zero_pages zeroPageWorld (Or.inl rfl) (by decide) rfl
    (fun n h => by cases h; rfl)

end PdfToolkit
